import Mathlib

/-!
Verification of the RancherResourceScanner scan engine (pkg/k8s/k8s.go).

The cluster's API surface is modelled as a record of responses (`Cluster`):
discovery results, the namespace list, and the list/get responses of the
dynamic client.  The Go functions `GetNamespaceScopedResources`,
`GetNamespaces`, `GetNamespaceObjects`, `resourceSupportsList`,
`CheckStuckFinalizers`, `CheckInvalidOwnerReferences`, `OwnerExists` and
`ScanNamespaceResources` are translated as pure functions over that record;
errors are `Except.error` values, matching the Go `(value, err)` returns.
-/

namespace RancherScanner

/-- A (group, version) pair, as produced by schema.ParseGroupVersion. -/
structure GroupVersion where
  group : String
  version : String
deriving DecidableEq, Repr

/-- A (group, version, plural-resource-name) triple (schema.GroupVersionResource). -/
structure GroupVersionResource where
  group : String
  version : String
  resource : String
deriving DecidableEq, Repr

/-- GroupVersion() on a GroupVersionResource. -/
def GroupVersionResource.groupVersion (r : GroupVersionResource) : GroupVersion :=
  ⟨r.group, r.version⟩

/-- GroupVersion.String(): "group/version", or just "version" when the group is empty. -/
def GroupVersion.toStr (gv : GroupVersion) : String :=
  if gv.group = "" then gv.version else gv.group ++ "/" ++ gv.version

/-- schema.ParseGroupVersion: "" and "/" parse to the empty GroupVersion; a string
with no slash is a bare version; a string with exactly one slash splits at it;
more than one slash is a parse error (`none`). -/
def parseGroupVersion (s : String) : Option GroupVersion :=
  if s = "" ∨ s = "/" then some ⟨"", ""⟩
  else
    match s.toList.count '/' with
    | 0 => some ⟨"", s⟩
    | 1 =>
        some ⟨String.mk (s.toList.takeWhile (fun ch => ch ≠ '/')),
              String.mk ((s.toList.dropWhile (fun ch => ch ≠ '/')).drop 1)⟩
    | _ => none

/-- metav1.OwnerReference: the fields the scanner reads. -/
structure OwnerReference where
  apiVersion : String
  kind : String
  name : String
  uid : String
deriving DecidableEq, Repr

/-- unstructured.Unstructured, restricted to the accessors the scanner uses:
GetName, GetNamespace, GetKind, GetFinalizers, GetDeletionTimestamp,
GetOwnerReferences.  The deletion timestamp is kept opaque as a string;
`none` models a nil *v1.Time. -/
structure Unstructured where
  name : String
  nspace : String
  kind : String
  finalizers : List String
  deletionTimestamp : Option String
  ownerReferences : List OwnerReference
deriving DecidableEq, Repr

/-- metav1.APIResource: the fields the scanner reads. -/
structure APIResource where
  name : String
  namespaced : Bool
  verbs : List String
deriving DecidableEq, Repr

/-- metav1.APIResourceList: one discovery entry per group/version. -/
structure APIResourceList where
  groupVersion : String
  apiResources : List APIResource
deriving DecidableEq, Repr

/-- Outcome of a discovery call (ServerPreferredResources /
ServerPreferredNamespacedResources): full success, partial failure
(IsGroupDiscoveryFailedError, with the successful groups' lists still
returned), or total failure. -/
inductive DiscoveryResult where
  | ok (lists : List APIResourceList)
  | partialFail (lists : List APIResourceList)
  | totalFail (msg : String)
deriving DecidableEq, Repr

/-- The cluster as seen through the clients: every response the scan engine
can receive.  `preferredNamespacedDiscovery` backs
ServerPreferredNamespacedResources (used by GetNamespaceScopedResources),
`preferredDiscovery` backs ServerPreferredResources (used by
resourceSupportsList); `listResp ns r` is the dynamic list call (as the names
of the returned items) and `getResp ns r name` the dynamic get call. -/
structure Cluster where
  preferredNamespacedDiscovery : DiscoveryResult
  preferredDiscovery : DiscoveryResult
  namespacesResp : Except String (List String)
  listResp : String → GroupVersionResource → Except String (List String)
  getResp : String → GroupVersionResource → String → Except String Unstructured

/-- Whether a Go call succeeded (err == nil). -/
def isOkE {α : Type} : Except String α → Bool
  | Except.ok _ => true
  | Except.error _ => false

/-- GetNamespaces: the names of the namespaces, or the list error. -/
def GetNamespaces (c : Cluster) : Except String (List String) :=
  c.namespacesResp

/-- The loop body of GetNamespaceScopedResources: parse each entry's
GroupVersion (a parse failure aborts with an error), keep the namespaced
resources, and build GroupVersionResources in discovery order. -/
def buildResources : List APIResourceList → Except String (List GroupVersionResource)
  | [] => Except.ok []
  | l :: ls =>
    match parseGroupVersion l.groupVersion with
    | none => Except.error ("error parsing GroupVersion " ++ l.groupVersion)
    | some gv =>
      match buildResources ls with
      | Except.error e => Except.error e
      | Except.ok rest =>
          Except.ok (((l.apiResources.filter (fun a => a.namespaced)).map
            (fun a => GroupVersionResource.mk gv.group gv.version a.name)) ++ rest)

/-- GetNamespaceScopedResources: on total discovery failure return the error;
on partial failure proceed with the partial lists exactly as on success. -/
def GetNamespaceScopedResources (c : Cluster) : Except String (List GroupVersionResource) :=
  match c.preferredNamespacedDiscovery with
  | DiscoveryResult.totalFail msg => Except.error ("error fetching namespaced resources: " ++ msg)
  | DiscoveryResult.ok lists => buildResources lists
  | DiscoveryResult.partialFail lists => buildResources lists

/-- GetNamespaceObjects: list the objects of `resource` in `ns` and return
their names, wrapping a list error. -/
def GetNamespaceObjects (c : Cluster) (ns : String) (resource : GroupVersionResource) :
    Except String (List String) :=
  match c.listResp ns resource with
  | Except.error e =>
      Except.error ("error listing objects for resource " ++ resource.resource ++
        " in namespace " ++ ns ++ ": " ++ e)
  | Except.ok names => Except.ok names

/-- The double loop of resourceSupportsList: find the first list whose
GroupVersion string matches; inside it find the first resource with the right
name and answer from its verbs; if that list lacks the name, keep scanning
the remaining lists. -/
def supportsListScan : List APIResourceList → String → String → Bool
  | [], _, _ => false
  | l :: ls, gvStr, resName =>
    if l.groupVersion = gvStr then
      match l.apiResources.find? (fun a => a.name = resName) with
      | some a => a.verbs.contains "list"
      | none => supportsListScan ls gvStr resName
    else supportsListScan ls gvStr resName

/-- resourceSupportsList: re-query ServerPreferredResources; on any error
(total or partial) return false, otherwise scan the lists. -/
def resourceSupportsList (c : Cluster) (resource : GroupVersionResource) : Bool :=
  match c.preferredDiscovery with
  | DiscoveryResult.ok lists =>
      supportsListScan lists resource.groupVersion.toStr resource.resource
  | DiscoveryResult.partialFail _ => false
  | DiscoveryResult.totalFail _ => false

/-- The finding unit. -/
structure ResourceCheckResult where
  Namespace : String
  Resource : String
  Name : String
  Issue : String
  AdditionalInfo : String
deriving DecidableEq, Repr

/-- Go fmt %v applied to a []string. -/
def fmtStringSlice (xs : List String) : String :=
  "[" ++ String.intercalate " " xs ++ "]"

/-- Go fmt %v applied to a *v1.Time. -/
def fmtDeletionTimestamp : Option String → String
  | none => "<nil>"
  | some t => t

/-- CheckStuckFinalizers: one finding when the object has a non-empty
finalizer list and a non-nil deletion timestamp, otherwise none. -/
def CheckStuckFinalizers (obj : Unstructured) : List ResourceCheckResult :=
  if obj.finalizers.length > 0 ∧ obj.deletionTimestamp.isSome then
    [{ Namespace := obj.nspace
       Resource := obj.kind
       Name := obj.name
       Issue := "Stuck finalizer"
       AdditionalInfo := "Finalizers: " ++ fmtStringSlice obj.finalizers ++
         ", DeletionTimestamp: " ++ fmtDeletionTimestamp obj.deletionTimestamp }]
  else []

/-- OwnerExists: parse the owner's apiVersion (parse failure means false),
then get (group, version, owner.kind as the resource name) / namespace / name
through the dynamic client; existence is success of the get. -/
def OwnerExists (c : Cluster) (owner : OwnerReference) (ns : String) : Bool :=
  match parseGroupVersion owner.apiVersion with
  | none => false
  | some gv =>
      isOkE (c.getResp ns (GroupVersionResource.mk gv.group gv.version owner.kind) owner.name)

/-- The finding CheckInvalidOwnerReferences appends for one dangling owner. -/
def invalidOwnerResult (obj : Unstructured) (owner : OwnerReference) : ResourceCheckResult :=
  { Namespace := obj.nspace
    Resource := obj.kind
    Name := obj.name
    Issue := "Invalid ownerReference"
    AdditionalInfo := "OwnerReference: APIVersion=" ++ owner.apiVersion ++
      ", Kind=" ++ owner.kind ++ ", Name=" ++ owner.name ++ ", UID=" ++ owner.uid }

/-- CheckInvalidOwnerReferences: walk the owner references in order and append
one finding per owner that OwnerExists rejects. -/
def CheckInvalidOwnerReferences (c : Cluster) (obj : Unstructured) (ns : String) :
    List ResourceCheckResult :=
  obj.ownerReferences.foldl
    (fun acc owner =>
      if OwnerExists c owner ns then acc else acc ++ [invalidOwnerResult obj owner]) []

/-- The per-object body of the ScanNamespaceResources loop: get the object
(skip it on error), append the stuck-finalizer findings, then append the
invalid-owner findings when there are any. -/
def scanObjectStep (c : Cluster) (ns : String) (resource : GroupVersionResource)
    (acc : List ResourceCheckResult) (objectName : String) : List ResourceCheckResult :=
  match c.getResp ns resource objectName with
  | Except.error _ => acc
  | Except.ok obj =>
      let finalizerIssues := CheckStuckFinalizers obj
      let acc1 := acc ++ finalizerIssues
      let ownerRefIssues := CheckInvalidOwnerReferences c obj ns
      if ownerRefIssues.length > 0 then acc1 ++ ownerRefIssues else acc1

/-- The per-resource body of the loop: skip the resource if it does not
support "list", skip it on a list error, otherwise fold over the object
names. -/
def scanResourceStep (c : Cluster) (ns : String) (acc : List ResourceCheckResult)
    (resource : GroupVersionResource) : List ResourceCheckResult :=
  if resourceSupportsList c resource then
    match GetNamespaceObjects c ns resource with
    | Except.error _ => acc
    | Except.ok objects => objects.foldl (scanObjectStep c ns resource) acc
  else acc

/-- ScanNamespaceResources: discovery and namespace enumeration are fatal on
error; the traversal accumulates findings namespace by namespace, resource by
resource, object by object. -/
def ScanNamespaceResources (c : Cluster) : Except String (List ResourceCheckResult) :=
  match GetNamespaceScopedResources c with
  | Except.error e => Except.error e
  | Except.ok resources =>
    match GetNamespaces c with
    | Except.error e => Except.error e
    | Except.ok namespaces =>
        Except.ok (namespaces.foldl
          (fun acc ns => resources.foldl (scanResourceStep c ns) acc) [])

/-! Declarative views of the traversal, used to state the claims: the findings
of one fetched object, of one (namespace, resource) pair, and of the whole
pass, written as concatenations instead of accumulator folds. -/

/-- The findings the health checks produce for one fetched object (empty when
the get fails). -/
def objectFindings (c : Cluster) (ns : String) (resource : GroupVersionResource)
    (objectName : String) : List ResourceCheckResult :=
  match c.getResp ns resource objectName with
  | Except.error _ => []
  | Except.ok obj => CheckStuckFinalizers obj ++ CheckInvalidOwnerReferences c obj ns

/-- The findings of one (namespace, resource) pair: empty when the resource
does not support "list" or the listing fails, otherwise the concatenation
over the listed object names. -/
def resourceFindings (c : Cluster) (ns : String) (resource : GroupVersionResource) :
    List ResourceCheckResult :=
  if resourceSupportsList c resource then
    match GetNamespaceObjects c ns resource with
    | Except.error _ => []
    | Except.ok objects => objects.flatMap (objectFindings c ns resource)
  else []

/-- The whole pass as a concatenation in traversal order: namespaces, then
resources, then objects. -/
def scanFindings (c : Cluster) (namespaces : List String)
    (resources : List GroupVersionResource) : List ResourceCheckResult :=
  namespaces.flatMap (fun ns => resources.flatMap (resourceFindings c ns))

/-- The first-match catalog lookup underlying supportsListScan: the verbs of
the named resource in the first matching discovery list that carries it. -/
def lookupVerbs : List APIResourceList → String → String → Option (List String)
  | [], _, _ => none
  | l :: ls, gvStr, resName =>
    if l.groupVersion = gvStr then
      match l.apiResources.find? (fun a => a.name = resName) with
      | some a => some a.verbs
      | none => lookupVerbs ls gvStr resName
    else lookupVerbs ls gvStr resName

/-! Bridging lemmas between the accumulator folds and the concatenation
views. -/

lemma scanObjectStep_eq (c : Cluster) (ns : String) (r : GroupVersionResource)
    (acc : List ResourceCheckResult) (name : String) :
    scanObjectStep c ns r acc name = acc ++ objectFindings c ns r name := by
  unfold scanObjectStep objectFindings
  cases c.getResp ns r name with
  | error e => simp
  | ok obj =>
      simp only []
      cases h : CheckInvalidOwnerReferences c obj ns with
      | nil => simp [h]
      | cons x xs => simp [h]

lemma foldl_scanObjectStep (c : Cluster) (ns : String) (r : GroupVersionResource)
    (names : List String) (acc : List ResourceCheckResult) :
    names.foldl (scanObjectStep c ns r) acc = acc ++ names.flatMap (objectFindings c ns r) := by
  induction names generalizing acc with
  | nil => simp
  | cons n ns' ih => simp [List.foldl_cons, scanObjectStep_eq, ih, List.append_assoc]

lemma scanResourceStep_eq (c : Cluster) (ns : String)
    (acc : List ResourceCheckResult) (r : GroupVersionResource) :
    scanResourceStep c ns acc r = acc ++ resourceFindings c ns r := by
  unfold scanResourceStep resourceFindings
  cases hsup : resourceSupportsList c r with
  | false => simp
  | true =>
      simp only [if_pos rfl]
      cases GetNamespaceObjects c ns r with
      | error e => simp
      | ok objects => simp [foldl_scanObjectStep]

lemma foldl_scanResourceStep (c : Cluster) (ns : String)
    (rs : List GroupVersionResource) (acc : List ResourceCheckResult) :
    rs.foldl (scanResourceStep c ns) acc = acc ++ rs.flatMap (resourceFindings c ns) := by
  induction rs generalizing acc with
  | nil => simp
  | cons r rs' ih => simp [List.foldl_cons, scanResourceStep_eq, ih, List.append_assoc]

lemma foldl_namespaces (c : Cluster) (nss : List String)
    (rs : List GroupVersionResource) (acc : List ResourceCheckResult) :
    nss.foldl (fun acc ns => rs.foldl (scanResourceStep c ns) acc) acc
      = acc ++ scanFindings c nss rs := by
  induction nss generalizing acc with
  | nil => simp [scanFindings]
  | cons ns nss' ih =>
      rw [List.foldl_cons, foldl_scanResourceStep, ih]
      simp [scanFindings, List.append_assoc]

/-- On successful discovery and namespace enumeration, the scan returns
exactly the concatenation view. -/
lemma scan_eq_concat (c : Cluster) (resources : List GroupVersionResource)
    (namespaces : List String)
    (h1 : GetNamespaceScopedResources c = Except.ok resources)
    (h2 : GetNamespaces c = Except.ok namespaces) :
    ScanNamespaceResources c = Except.ok (scanFindings c namespaces resources) := by
  unfold ScanNamespaceResources
  rw [h1, h2]
  simp [foldl_namespaces]

lemma ownerFold_eq (c : Cluster) (obj : Unstructured) (ns : String)
    (owners : List OwnerReference) (acc : List ResourceCheckResult) :
    owners.foldl
      (fun acc owner =>
        if OwnerExists c owner ns then acc else acc ++ [invalidOwnerResult obj owner]) acc
    = acc ++ (owners.filter (fun o => !(OwnerExists c o ns))).map (invalidOwnerResult obj) := by
  induction owners generalizing acc with
  | nil => simp
  | cons o os ih =>
      rw [List.foldl_cons]
      cases h : OwnerExists c o ns with
      | true => simp [h, ih]
      | false => simp [h, ih]

/-- Claim C1: the stuck-finalizer check emits exactly one finding when the
object's finalizer list is non-empty and its deletion timestamp is non-null,
and zero findings otherwise; in particular the count never depends on how
many finalizers there are. -/
theorem checkStuckFinalizers_count (obj : Unstructured) :
    (CheckStuckFinalizers obj).length =
      if obj.finalizers ≠ [] ∧ obj.deletionTimestamp ≠ none then 1 else 0 := by
  unfold CheckStuckFinalizers
  cases h1 : obj.finalizers with
  | nil => simp [h1]
  | cons f fs =>
      cases h2 : obj.deletionTimestamp with
      | none => simp [h1, h2]
      | some t => simp [h1, h2]

/-- Claim C2: the invalid-owner-reference check emits exactly the findings of
the owner references that OwnerExists rejects, one finding per dangling
owner, in order; hence an object with zero owner references contributes zero
findings and one with three dangling owners contributes three. -/
theorem checkInvalidOwnerReferences_spec (c : Cluster) (obj : Unstructured) (ns : String) :
    CheckInvalidOwnerReferences c obj ns
      = (obj.ownerReferences.filter (fun o => !(OwnerExists c o ns))).map
          (invalidOwnerResult obj)
    ∧ (CheckInvalidOwnerReferences c obj ns).length
      = (obj.ownerReferences.filter (fun o => !(OwnerExists c o ns))).length := by
  constructor
  · unfold CheckInvalidOwnerReferences
    rw [ownerFold_eq]
    simp
  · unfold CheckInvalidOwnerReferences
    rw [ownerFold_eq]
    simp

/-- Claim C3: OwnerExists returns false whenever the owner's apiVersion fails
to parse; otherwise it is true exactly when the direct get of
(group, version, kind-as-resource-name, namespace, name) succeeds — the
owner's kind is used verbatim as the resource name. -/
theorem ownerExists_spec (c : Cluster) (owner : OwnerReference) (ns : String) :
    (parseGroupVersion owner.apiVersion = none → OwnerExists c owner ns = false)
    ∧ ∀ gv, parseGroupVersion owner.apiVersion = some gv →
        (OwnerExists c owner ns = true ↔
          ∃ obj, c.getResp ns (GroupVersionResource.mk gv.group gv.version owner.kind)
            owner.name = Except.ok obj) := by
  constructor
  · intro h
    unfold OwnerExists
    rw [h]
  · intro gv h
    unfold OwnerExists
    rw [h]
    cases hg : c.getResp ns (GroupVersionResource.mk gv.group gv.version owner.kind)
        owner.name with
    | error e => simp [isOkE, hg]
    | ok o => simp [isOkE, hg]

/-- A concrete owner reference and cluster exercising the parse-success branch
of OwnerExists. -/
def wOwner : OwnerReference := ⟨"apps/v1", "Deployment", "d1", "u1"⟩

def wDeployment : Unstructured := ⟨"d1", "app", "Deployment", [], none, []⟩

def wOwnerCluster : Cluster :=
  { preferredNamespacedDiscovery := DiscoveryResult.ok []
    preferredDiscovery := DiscoveryResult.ok []
    namespacesResp := Except.ok []
    listResp := fun _ _ => Except.error "unused"
    getResp := fun _ _ _ => Except.ok wDeployment }

/-- Witness for C3 at a concrete owner reference whose apiVersion parses. -/
theorem ownerExists_spec_witness :
    parseGroupVersion "apps/v1" = some ⟨"apps", "v1"⟩
    ∧ (OwnerExists wOwnerCluster wOwner "app" = true ↔
        ∃ obj, wOwnerCluster.getResp "app" (GroupVersionResource.mk "apps" "v1" "Deployment")
          "d1" = Except.ok obj) :=
  ⟨by decide, (ownerExists_spec wOwnerCluster wOwner "app").2 ⟨"apps", "v1"⟩ (by decide)⟩

lemma supportsListScan_iff (lists : List APIResourceList) (gvStr resName : String) :
    supportsListScan lists gvStr resName = true ↔
      ∃ verbs, lookupVerbs lists gvStr resName = some verbs ∧ "list" ∈ verbs := by
  induction lists with
  | nil => simp [supportsListScan, lookupVerbs]
  | cons l ls ih =>
      unfold supportsListScan lookupVerbs
      by_cases hgv : l.groupVersion = gvStr
      · simp only [if_pos hgv]
        cases hf : l.apiResources.find? (fun a => a.name = resName) with
        | none => simpa using ih
        | some a => simp
      · simp only [if_neg hgv]
        exact ih

/-- Claim C4: resourceSupportsList answers from the re-queried catalog — true
exactly when "list" is among the type's verbs there — and a type for which it
answers false is skipped entirely: its (namespace, type) pair contributes no
findings, and the result does not depend on the list/get responses for it
(no fetch is consulted). -/
theorem resourceSupportsList_gate (c : Cluster) (r : GroupVersionResource) (ns : String) :
    (∀ lists, c.preferredDiscovery = DiscoveryResult.ok lists →
       (resourceSupportsList c r = true ↔
         ∃ verbs, lookupVerbs lists r.groupVersion.toStr r.resource = some verbs
           ∧ "list" ∈ verbs))
    ∧ (resourceSupportsList c r = false →
        resourceFindings c ns r = []
        ∧ ∀ f g, resourceFindings { c with listResp := f, getResp := g } ns r = []) := by
  constructor
  · intro lists hd
    unfold resourceSupportsList
    rw [hd]
    exact supportsListScan_iff lists r.groupVersion.toStr r.resource
  · intro hfalse
    constructor
    · unfold resourceFindings
      rw [hfalse]
      simp
    · intro f g
      have hsame : resourceSupportsList { c with listResp := f, getResp := g } r
          = resourceSupportsList c r := rfl
      unfold resourceFindings
      rw [hsame, hfalse]
      simp

/-- Discovery catalog for the C4 witness: pods support "list", bindings do
not. -/
def wC4Lists : List APIResourceList :=
  [APIResourceList.mk "v1"
    [APIResource.mk "pods" true ["get", "list"],
     APIResource.mk "bindings" true ["create"]]]

def wC4Cluster : Cluster :=
  { preferredNamespacedDiscovery := DiscoveryResult.ok wC4Lists
    preferredDiscovery := DiscoveryResult.ok wC4Lists
    namespacesResp := Except.ok ["app"]
    listResp := fun _ _ => Except.ok ["b1"]
    getResp := fun _ _ _ => Except.ok wDeployment }

def wPods : GroupVersionResource := ⟨"", "v1", "pods"⟩

def wBindings : GroupVersionResource := ⟨"", "v1", "bindings"⟩

/-- Witness for C4: on the concrete catalog the prober's answer matches the
catalog's verbs, and the no-list type contributes nothing whatever the
list/get responses are. -/
theorem resourceSupportsList_gate_witness :
    wC4Cluster.preferredDiscovery = DiscoveryResult.ok wC4Lists
    ∧ resourceSupportsList wC4Cluster wBindings = false
    ∧ (resourceSupportsList wC4Cluster wPods = true ↔
        ∃ verbs, lookupVerbs wC4Lists wPods.groupVersion.toStr wPods.resource = some verbs
          ∧ "list" ∈ verbs)
    ∧ resourceFindings wC4Cluster "app" wBindings = []
    ∧ ∀ f g, resourceFindings { wC4Cluster with listResp := f, getResp := g } "app" wBindings
        = [] :=
  ⟨rfl, by decide,
   (resourceSupportsList_gate wC4Cluster wPods "app").1 wC4Lists rfl,
   ((resourceSupportsList_gate wC4Cluster wBindings "app").2 (by decide)).1,
   ((resourceSupportsList_gate wC4Cluster wBindings "app").2 (by decide)).2⟩

/-- Claim C5: a partial discovery failure is handled exactly like a success on
the partial lists — the surviving groups' types are returned, nothing is
raised — and the scan proceeds to a normal result when the rest of the pass
succeeds. -/
theorem partialDiscovery_spec (c : Cluster) (lists : List APIResourceList) :
    GetNamespaceScopedResources
        { c with preferredNamespacedDiscovery := DiscoveryResult.partialFail lists }
      = buildResources lists
    ∧ GetNamespaceScopedResources
        { c with preferredNamespacedDiscovery := DiscoveryResult.partialFail lists }
      = GetNamespaceScopedResources
          { c with preferredNamespacedDiscovery := DiscoveryResult.ok lists }
    ∧ ∀ resources namespaces,
        buildResources lists = Except.ok resources →
        c.namespacesResp = Except.ok namespaces →
        ScanNamespaceResources
            { c with preferredNamespacedDiscovery := DiscoveryResult.partialFail lists }
          = Except.ok (scanFindings
              { c with preferredNamespacedDiscovery := DiscoveryResult.partialFail lists }
              namespaces resources) := by
  refine ⟨rfl, rfl, ?_⟩
  intro resources namespaces hb hn
  exact scan_eq_concat _ resources namespaces hb hn

/-- Two healthy groups for the C5 witness (Scenario E: a third group failed
and is absent from the partial lists). -/
def wC5Lists : List APIResourceList :=
  [APIResourceList.mk "v1" [APIResource.mk "pods" true ["get", "list"]],
   APIResourceList.mk "apps/v1" [APIResource.mk "deployments" true ["get", "list"]]]

def wC5Base : Cluster :=
  { preferredNamespacedDiscovery := DiscoveryResult.totalFail "replaced below"
    preferredDiscovery := DiscoveryResult.ok wC5Lists
    namespacesResp := Except.ok ["app"]
    listResp := fun _ _ => Except.ok []
    getResp := fun _ _ _ => Except.error "no object" }

/-- Witness for C5: with one group failed and two surviving, the scan
completes with a normal (here empty) result built from the two surviving
groups. -/
theorem partialDiscovery_spec_witness :
    buildResources wC5Lists
      = Except.ok [GroupVersionResource.mk "" "v1" "pods",
                   GroupVersionResource.mk "apps" "v1" "deployments"]
    ∧ wC5Base.namespacesResp = Except.ok ["app"]
    ∧ ScanNamespaceResources
        { wC5Base with preferredNamespacedDiscovery := DiscoveryResult.partialFail wC5Lists }
      = Except.ok (scanFindings
          { wC5Base with preferredNamespacedDiscovery := DiscoveryResult.partialFail wC5Lists }
          ["app"]
          [GroupVersionResource.mk "" "v1" "pods",
           GroupVersionResource.mk "apps" "v1" "deployments"]) :=
  ⟨rfl, rfl,
   (partialDiscovery_spec wC5Base wC5Lists).2.2
     [GroupVersionResource.mk "" "v1" "pods",
      GroupVersionResource.mk "apps" "v1" "deployments"]
     ["app"] rfl rfl⟩

/-- Claim C6: a namespace-enumeration failure or a total discovery failure is
fatal — ScanNamespaceResources returns the error and no findings. -/
theorem scanFatal_spec (c : Cluster) :
    (∀ e, GetNamespaceScopedResources c = Except.error e →
        ScanNamespaceResources c = Except.error e)
    ∧ (∀ msg, c.preferredNamespacedDiscovery = DiscoveryResult.totalFail msg →
        ScanNamespaceResources c
          = Except.error ("error fetching namespaced resources: " ++ msg))
    ∧ (∀ e resources, GetNamespaceScopedResources c = Except.ok resources →
        GetNamespaces c = Except.error e →
        ScanNamespaceResources c = Except.error e)
    ∧ (∀ e, GetNamespaces c = Except.error e →
        ∃ e2, ScanNamespaceResources c = Except.error e2) := by
  refine ⟨?_, ?_, ?_, ?_⟩
  · intro e h
    unfold ScanNamespaceResources
    rw [h]
  · intro msg h
    unfold ScanNamespaceResources GetNamespaceScopedResources
    rw [h]
  · intro e resources h1 h2
    unfold ScanNamespaceResources
    rw [h1, h2]
  · intro e h
    cases hd : GetNamespaceScopedResources c with
    | error e2 =>
        refine ⟨e2, ?_⟩
        unfold ScanNamespaceResources
        rw [hd]
    | ok resources =>
        refine ⟨e, ?_⟩
        unfold ScanNamespaceResources
        rw [hd, h]

def wFatalCluster : Cluster :=
  { preferredNamespacedDiscovery := DiscoveryResult.totalFail "the server is down"
    preferredDiscovery := DiscoveryResult.totalFail "the server is down"
    namespacesResp := Except.error "namespaces unavailable"
    listResp := fun _ _ => Except.ok []
    getResp := fun _ _ _ => Except.error "no object" }

def wNsFailCluster : Cluster :=
  { preferredNamespacedDiscovery := DiscoveryResult.ok []
    preferredDiscovery := DiscoveryResult.ok []
    namespacesResp := Except.error "namespaces unavailable"
    listResp := fun _ _ => Except.ok []
    getResp := fun _ _ _ => Except.error "no object" }

/-- Witness for C6: total discovery failure and namespace failure each abort
the pass with an error. -/
theorem scanFatal_spec_witness :
    wFatalCluster.preferredNamespacedDiscovery = DiscoveryResult.totalFail "the server is down"
    ∧ ScanNamespaceResources wFatalCluster
        = Except.error ("error fetching namespaced resources: " ++ "the server is down")
    ∧ GetNamespaceScopedResources wNsFailCluster = Except.ok []
    ∧ GetNamespaces wNsFailCluster = Except.error "namespaces unavailable"
    ∧ ScanNamespaceResources wNsFailCluster = Except.error "namespaces unavailable" :=
  ⟨rfl,
   (scanFatal_spec wFatalCluster).2.1 "the server is down" rfl,
   rfl, rfl,
   (scanFatal_spec wNsFailCluster).2.2.1 "namespaces unavailable" [] rfl rfl⟩

/-- Claim C7: failures scoped to one (namespace, type) listing or one object
get are absorbed inside the traversal — the item contributes nothing — and
whenever discovery and namespace enumeration succeed the scan returns a
result, never an error, regardless of the list/get responses. -/
theorem perItemErrors_spec (c : Cluster) (ns : String) (r : GroupVersionResource)
    (name : String) :
    (∀ e, c.listResp ns r = Except.error e → resourceFindings c ns r = [])
    ∧ (∀ e, c.getResp ns r name = Except.error e → objectFindings c ns r name = [])
    ∧ ∀ resources namespaces,
        GetNamespaceScopedResources c = Except.ok resources →
        GetNamespaces c = Except.ok namespaces →
        ∃ out, ScanNamespaceResources c = Except.ok out := by
  refine ⟨?_, ?_, ?_⟩
  · intro e h
    unfold resourceFindings GetNamespaceObjects
    rw [h]
    cases resourceSupportsList c r <;> simp
  · intro e h
    unfold objectFindings
    rw [h]
  · intro resources namespaces h1 h2
    exact ⟨_, scan_eq_concat c resources namespaces h1 h2⟩

def wBrokenLists : List APIResourceList :=
  [APIResourceList.mk "v1" [APIResource.mk "pods" true ["get", "list"]]]

/-- A cluster whose discovery and namespaces succeed but whose every list and
get call fails. -/
def wBrokenCluster : Cluster :=
  { preferredNamespacedDiscovery := DiscoveryResult.ok wBrokenLists
    preferredDiscovery := DiscoveryResult.ok wBrokenLists
    namespacesResp := Except.ok ["app"]
    listResp := fun _ _ => Except.error "list broken"
    getResp := fun _ _ _ => Except.error "get broken" }

/-- Witness for C7: with every list and get failing, the offending items
contribute nothing and the scan still completes without an error. -/
theorem perItemErrors_spec_witness :
    wBrokenCluster.listResp "app" wPods = Except.error "list broken"
    ∧ resourceFindings wBrokenCluster "app" wPods = []
    ∧ wBrokenCluster.getResp "app" wPods "p1" = Except.error "get broken"
    ∧ objectFindings wBrokenCluster "app" wPods "p1" = []
    ∧ ∃ out, ScanNamespaceResources wBrokenCluster = Except.ok out :=
  ⟨rfl,
   (perItemErrors_spec wBrokenCluster "app" wPods "p1").1 "list broken" rfl,
   rfl,
   (perItemErrors_spec wBrokenCluster "app" wPods "p1").2.1 "get broken" rfl,
   (perItemErrors_spec wBrokenCluster "app" wPods "p1").2.2
     [GroupVersionResource.mk "" "v1" "pods"] ["app"] rfl rfl⟩

/-- Claim C8: on a successful pass the aggregate result is exactly the
concatenation, in traversal order (namespace, then resource type, then object
name), of the findings the two health checks produce for every fetched
object. -/
theorem scanConcat_spec (c : Cluster) (resources : List GroupVersionResource)
    (namespaces : List String)
    (h1 : GetNamespaceScopedResources c = Except.ok resources)
    (h2 : GetNamespaces c = Except.ok namespaces) :
    ScanNamespaceResources c = Except.ok
      (namespaces.flatMap fun ns => resources.flatMap fun r =>
        if resourceSupportsList c r then
          match GetNamespaceObjects c ns r with
          | Except.error _ => []
          | Except.ok objects => objects.flatMap fun objectName =>
              match c.getResp ns r objectName with
              | Except.error _ => []
              | Except.ok obj =>
                  CheckStuckFinalizers obj ++ CheckInvalidOwnerReferences c obj ns
        else []) := by
  have h := scan_eq_concat c resources namespaces h1 h2
  rw [h]
  rfl

/-- A pod stuck in deletion: a finalizer is present and deletion was
requested. -/
def wStuckPod : Unstructured :=
  ⟨"p1", "app", "Pod", ["a.io/cleanup"], some "2024-01-01T00:00:00Z", []⟩

def wScanLists : List APIResourceList :=
  [APIResourceList.mk "v1" [APIResource.mk "pods" true ["get", "list"]]]

def wScanCluster : Cluster :=
  { preferredNamespacedDiscovery := DiscoveryResult.ok wScanLists
    preferredDiscovery := DiscoveryResult.ok wScanLists
    namespacesResp := Except.ok ["app"]
    listResp := fun _ _ => Except.ok ["p1"]
    getResp := fun _ _ _ => Except.ok wStuckPod }

/-- Witness for C8 on a one-namespace, one-resource, one-object cluster. -/
theorem scanConcat_spec_witness :
    GetNamespaceScopedResources wScanCluster
      = Except.ok [GroupVersionResource.mk "" "v1" "pods"]
    ∧ GetNamespaces wScanCluster = Except.ok ["app"]
    ∧ ScanNamespaceResources wScanCluster = Except.ok
        (["app"].flatMap fun ns =>
          [GroupVersionResource.mk "" "v1" "pods"].flatMap fun r =>
            if resourceSupportsList wScanCluster r then
              match GetNamespaceObjects wScanCluster ns r with
              | Except.error _ => []
              | Except.ok objects => objects.flatMap fun objectName =>
                  match wScanCluster.getResp ns r objectName with
                  | Except.error _ => []
                  | Except.ok obj =>
                      CheckStuckFinalizers obj
                        ++ CheckInvalidOwnerReferences wScanCluster obj ns
            else []) :=
  ⟨rfl, rfl,
   scanConcat_spec wScanCluster [GroupVersionResource.mk "" "v1" "pods"] ["app"] rfl rfl⟩

/-- Claim C9: the scan is a deterministic function of the cluster's responses;
two clusters answering every discovery, namespace, list and get call the same
way produce field-for-field the same findings. -/
theorem scanDeterministic_spec (c1 c2 : Cluster)
    (h1 : c1.preferredNamespacedDiscovery = c2.preferredNamespacedDiscovery)
    (h2 : c1.preferredDiscovery = c2.preferredDiscovery)
    (h3 : c1.namespacesResp = c2.namespacesResp)
    (h4 : ∀ ns r, c1.listResp ns r = c2.listResp ns r)
    (h5 : ∀ ns r n, c1.getResp ns r n = c2.getResp ns r n) :
    ScanNamespaceResources c1 = ScanNamespaceResources c2 := by
  obtain ⟨a1, b1, n1, l1, g1⟩ := c1
  obtain ⟨a2, b2, n2, l2, g2⟩ := c2
  rw [show a1 = a2 from h1, show b1 = b2 from h2, show n1 = n2 from h3,
      show l1 = l2 from funext fun ns => funext fun r => h4 ns r,
      show g1 = g2 from funext fun ns => funext fun r => funext fun n => h5 ns r n]

/-- The same cluster as wScanCluster, written with cosmetically different
(but extensionally equal) response functions. -/
def wScanCluster2 : Cluster :=
  { preferredNamespacedDiscovery := DiscoveryResult.ok wScanLists
    preferredDiscovery := DiscoveryResult.ok wScanLists
    namespacesResp := Except.ok ["app"]
    listResp := fun _ _ => Except.ok [String.append "p" "1"]
    getResp := fun _ _ _ => Except.ok wStuckPod }

/-- Witness for C9: the two presentations of the same responses produce the
same findings. -/
theorem scanDeterministic_spec_witness :
    wScanCluster.namespacesResp = wScanCluster2.namespacesResp
    ∧ (∀ ns r, wScanCluster.listResp ns r = wScanCluster2.listResp ns r)
    ∧ (∀ ns r n, wScanCluster.getResp ns r n = wScanCluster2.getResp ns r n)
    ∧ ScanNamespaceResources wScanCluster = ScanNamespaceResources wScanCluster2 :=
  ⟨rfl, fun _ _ => rfl, fun _ _ _ => rfl,
   scanDeterministic_spec wScanCluster wScanCluster2 rfl rfl rfl
     (fun _ _ => rfl) (fun _ _ _ => rfl)⟩

lemma mem_stuck_fields (obj : Unstructured) (res : ResourceCheckResult)
    (h : res ∈ CheckStuckFinalizers obj) :
    res.Namespace = obj.nspace ∧ res.Resource = obj.kind ∧ res.Name = obj.name
      ∧ res.Issue = "Stuck finalizer" := by
  unfold CheckStuckFinalizers at h
  by_cases hc : obj.finalizers.length > 0 ∧ obj.deletionTimestamp.isSome
  · rw [if_pos hc] at h
    rw [List.mem_singleton] at h
    subst h
    exact ⟨rfl, rfl, rfl, rfl⟩
  · rw [if_neg hc] at h
    exact absurd h (List.not_mem_nil res)

lemma mem_invalid_fields (c : Cluster) (obj : Unstructured) (ns : String)
    (res : ResourceCheckResult) (h : res ∈ CheckInvalidOwnerReferences c obj ns) :
    res.Namespace = obj.nspace ∧ res.Resource = obj.kind ∧ res.Name = obj.name
      ∧ res.Issue = "Invalid ownerReference" := by
  unfold CheckInvalidOwnerReferences at h
  rw [ownerFold_eq c obj ns obj.ownerReferences [], List.nil_append, List.mem_map] at h
  obtain ⟨o, _, ho⟩ := h
  subst ho
  exact ⟨rfl, rfl, rfl, rfl⟩

lemma mem_objectFindings_issue (c : Cluster) (ns : String) (r : GroupVersionResource)
    (name : String) (res : ResourceCheckResult) (h : res ∈ objectFindings c ns r name) :
    res.Issue = "Stuck finalizer" ∨ res.Issue = "Invalid ownerReference" := by
  unfold objectFindings at h
  cases hg : c.getResp ns r name with
  | error e =>
      rw [hg] at h
      exact absurd h (List.not_mem_nil res)
  | ok obj =>
      rw [hg, List.mem_append] at h
      cases h with
      | inl h => exact Or.inl (mem_stuck_fields obj res h).2.2.2
      | inr h => exact Or.inr (mem_invalid_fields c obj ns res h).2.2.2

lemma mem_scanFindings_issue (c : Cluster) (nss : List String)
    (rs : List GroupVersionResource) (res : ResourceCheckResult)
    (h : res ∈ scanFindings c nss rs) :
    res.Issue = "Stuck finalizer" ∨ res.Issue = "Invalid ownerReference" := by
  unfold scanFindings at h
  rw [List.mem_flatMap] at h
  obtain ⟨ns, _, h⟩ := h
  rw [List.mem_flatMap] at h
  obtain ⟨r, _, h⟩ := h
  unfold resourceFindings at h
  by_cases hsup : resourceSupportsList c r = true
  · rw [if_pos hsup] at h
    cases hl : GetNamespaceObjects c ns r with
    | error e =>
        rw [hl] at h
        exact absurd h (List.not_mem_nil res)
    | ok objects =>
        rw [hl, List.mem_flatMap] at h
        obtain ⟨name, _, h⟩ := h
        exact mem_objectFindings_issue c ns r name res h
  · rw [if_neg hsup] at h
    exact absurd h (List.not_mem_nil res)

/-- Claim C10: every finding of either health check takes Namespace, Name and
Resource from the checked object's own metadata — Resource is the object's
kind string, not the plural resource name it was listed under — its Issue is
exactly "Stuck finalizer" or exactly "Invalid ownerReference", and no scan
can produce any other issue kind. -/
theorem resultFields_spec (c : Cluster) (obj : Unstructured) (ns : String) :
    (∀ res, res ∈ CheckStuckFinalizers obj →
        res.Namespace = obj.nspace ∧ res.Resource = obj.kind ∧ res.Name = obj.name
          ∧ res.Issue = "Stuck finalizer")
    ∧ (∀ res, res ∈ CheckInvalidOwnerReferences c obj ns →
        res.Namespace = obj.nspace ∧ res.Resource = obj.kind ∧ res.Name = obj.name
          ∧ res.Issue = "Invalid ownerReference")
    ∧ ∀ rs res, ScanNamespaceResources c = Except.ok rs → res ∈ rs →
        res.Issue = "Stuck finalizer" ∨ res.Issue = "Invalid ownerReference" := by
  refine ⟨fun res h => mem_stuck_fields obj res h,
          fun res h => mem_invalid_fields c obj ns res h, ?_⟩
  intro rs res hscan hmem
  unfold ScanNamespaceResources at hscan
  cases hd : GetNamespaceScopedResources c with
  | error e =>
      rw [hd] at hscan
      exact absurd hscan (by simp)
  | ok resources =>
      rw [hd] at hscan
      cases hn : GetNamespaces c with
      | error e =>
          rw [hn] at hscan
          exact absurd hscan (by simp)
      | ok namespaces =>
          rw [hn] at hscan
          have hscan2 : Except.ok (namespaces.foldl
              (fun acc ns => resources.foldl (scanResourceStep c ns) acc) [])
              = Except.ok rs := hscan
          rw [foldl_namespaces, List.nil_append] at hscan2
          have hrs : scanFindings c namespaces resources = rs := Except.ok.inj hscan2
          rw [← hrs] at hmem
          exact mem_scanFindings_issue c namespaces resources res hmem

/-- An object with both a stuck finalizer and a declared owner, whose kind
string ("Pod") differs from the plural name it is listed under ("pods"). -/
def wC10Owner : OwnerReference := ⟨"apps/v1", "Deployment", "d1", "u1"⟩

def wC10Obj : Unstructured :=
  ⟨"p1", "app", "Pod", ["a.io/cleanup"], some "2024-01-01T00:00:00Z", [wC10Owner]⟩

def wC10Cluster : Cluster :=
  { preferredNamespacedDiscovery := DiscoveryResult.ok wScanLists
    preferredDiscovery := DiscoveryResult.ok wScanLists
    namespacesResp := Except.ok ["app"]
    listResp := fun _ _ => Except.ok ["p1"]
    getResp := fun _ _ _ => Except.ok wC10Obj }

/-- A cluster whose gets all fail, so wC10Obj's owner does not resolve. -/
def wC10ErrCluster : Cluster :=
  { preferredNamespacedDiscovery := DiscoveryResult.ok wScanLists
    preferredDiscovery := DiscoveryResult.ok wScanLists
    namespacesResp := Except.ok ["app"]
    listResp := fun _ _ => Except.ok ["p1"]
    getResp := fun _ _ _ => Except.error "not found" }

def wC10Stuck : ResourceCheckResult :=
  ⟨"app", "Pod", "p1", "Stuck finalizer",
   "Finalizers: [a.io/cleanup], DeletionTimestamp: 2024-01-01T00:00:00Z"⟩

/-- Witness for C10: the concrete stuck-finalizer finding carries the
object's metadata and kind, a dangling owner yields the invalid-owner issue,
and a full scan's findings carry only the two issue strings. -/
theorem resultFields_spec_witness :
    wC10Stuck ∈ CheckStuckFinalizers wC10Obj
    ∧ (wC10Stuck.Namespace = wC10Obj.nspace ∧ wC10Stuck.Resource = wC10Obj.kind
        ∧ wC10Stuck.Name = wC10Obj.name ∧ wC10Stuck.Issue = "Stuck finalizer")
    ∧ invalidOwnerResult wC10Obj wC10Owner
        ∈ CheckInvalidOwnerReferences wC10ErrCluster wC10Obj "app"
    ∧ (invalidOwnerResult wC10Obj wC10Owner).Issue = "Invalid ownerReference"
    ∧ ScanNamespaceResources wC10Cluster = Except.ok [wC10Stuck]
    ∧ (wC10Stuck.Issue = "Stuck finalizer" ∨ wC10Stuck.Issue = "Invalid ownerReference") :=
  ⟨by decide,
   (resultFields_spec wC10Cluster wC10Obj "app").1 wC10Stuck (by decide),
   by decide,
   ((resultFields_spec wC10ErrCluster wC10Obj "app").2.1
     (invalidOwnerResult wC10Obj wC10Owner) (by decide)).2.2.2,
   rfl,
   (resultFields_spec wC10Cluster wC10Obj "app").2.2 [wC10Stuck] wC10Stuck rfl (by decide)⟩

end RancherScanner
